import Mathlib

/-!
Shallow embedding of the DMR-style multi-talkgroup audio coordinator.

The repository holds two variants of the `DMRAudioDuckingEngine` class with
the same surface but different `calculateTargetGain` / `emergencyOverride`
bodies: one hard-codes the DMR routing rules (namespace `DMR` below), the
other reads the `TALKGROUP_PRIORITIES` table (namespace `TBL` below).  The
coordinator store (`multiTalkgroupStore`, zustand) is embedded in namespace
`MTS`.

Volumes, priorities and clock instants are rationals.  JavaScript numbers
that can be `NaN` or infinite (the store's volume path goes through
`Math.max`/`Math.min`) are modelled by `JSNum`.  JavaScript `Map`s are
insertion-ordered association lists (`mapGet`/`mapSet`/`mapDelete`), and a
Web Audio `GainNode.gain` is its last `setValueAtTime` value plus the queue
of pending `linearRampToValueAtTime` commands.
-/

/-- Talkgroup kind (types.ts `TalkgroupType`):
'static-priority' | 'static-secondary' | 'dynamic' | 'adhoc'. -/
inductive TalkgroupType where
  | staticPriority
  | staticSecondary
  | dynamic
  | adhoc
deriving DecidableEq

/-- Per-room descriptor (types.ts `TalkgroupRoom`). -/
structure TalkgroupRoom where
  roomName : String
  talkgroupId : Nat
  talkgroupName : String
  type : TalkgroupType
  priority : ℚ
  holdTimeSeconds : ℚ
  canPublish : Bool
  canSubscribe : Bool
deriving DecidableEq

/-- Per-user, per-talkgroup settings (types.ts `UserTalkgroupSettings`). -/
structure UserTalkgroupSettings where
  userId : Nat
  talkgroupId : Nat
  isMuted : Bool
  volume : ℚ
  joinedAt : String
deriving DecidableEq

/-- Ducking relations of one kind (types.ts `DuckingBehavior`). -/
structure DuckingBehavior where
  overrides : List TalkgroupType
  duckedBy : List TalkgroupType
  duckLevel : ℚ
  responseTimeMs : ℚ
  holdTimeMs : ℚ
deriving DecidableEq

/-- One row of the DMR priority table (types.ts `TalkgroupPriority`). -/
structure TalkgroupPriority where
  type : TalkgroupType
  priority : ℚ
  duckingBehavior : DuckingBehavior
deriving DecidableEq

/-- The DMR priority system table (types.ts `TALKGROUP_PRIORITIES`). -/
def TALKGROUP_PRIORITIES : TalkgroupType → TalkgroupPriority
  | .staticPriority =>
    { type := .staticPriority, priority := 100,
      duckingBehavior :=
        { overrides := [.staticSecondary, .dynamic, .adhoc], duckedBy := [],
          duckLevel := 0.0, responseTimeMs := 50, holdTimeMs := 0 } }
  | .staticSecondary =>
    { type := .staticSecondary, priority := 80,
      duckingBehavior :=
        { overrides := [.dynamic, .adhoc], duckedBy := [.staticPriority],
          duckLevel := 0.3, responseTimeMs := 100, holdTimeMs := 2000 } }
  | .dynamic =>
    { type := .dynamic, priority := 50,
      duckingBehavior :=
        { overrides := [.adhoc], duckedBy := [.staticPriority, .staticSecondary],
          duckLevel := 0.6, responseTimeMs := 100, holdTimeMs := 3000 } }
  | .adhoc =>
    { type := .adhoc, priority := 40,
      duckingBehavior :=
        { overrides := [], duckedBy := [.staticPriority, .staticSecondary, .dynamic],
          duckLevel := 0.0, responseTimeMs := 150, holdTimeMs := 3000 } }

/-- JavaScript number for the store's volume path: rationals plus NaN and
the two infinities. -/
inductive JSNum where
  | nan
  | posInf
  | negInf
  | val (q : ℚ)
deriving DecidableEq

/-- JavaScript `Math.min` on two arguments: NaN propagates. -/
def jsMin : JSNum → JSNum → JSNum
  | .nan, _ => .nan
  | _, .nan => .nan
  | .negInf, _ => .negInf
  | _, .negInf => .negInf
  | .posInf, b => b
  | a, .posInf => a
  | .val a, .val b => .val (min a b)

/-- JavaScript `Math.max` on two arguments: NaN propagates. -/
def jsMax : JSNum → JSNum → JSNum
  | .nan, _ => .nan
  | _, .nan => .nan
  | .posInf, _ => .posInf
  | _, .posInf => .posInf
  | .negInf, b => b
  | a, .negInf => a
  | .val a, .val b => .val (max a b)

/-- JavaScript `Map.get`. -/
def mapGet {α : Type} : List (String × α) → String → Option α
  | [], _ => none
  | (k, v) :: t, key => if k = key then some v else mapGet t key

/-- JavaScript `Map.set`: replace in place if the key is present, else append. -/
def mapSet {α : Type} : List (String × α) → String → α → List (String × α)
  | [], key, v => [(key, v)]
  | (k, w) :: t, key, v =>
    if k = key then (key, v) :: t else (k, w) :: mapSet t key v

/-- JavaScript `Map.delete`. -/
def mapDelete {α : Type} : List (String × α) → String → List (String × α)
  | [], _ => []
  | (k, w) :: t, key =>
    if k = key then mapDelete t key else (k, w) :: mapDelete t key

/-- JavaScript `Set.add` (insertion order, no duplicates). -/
def setAdd (l : List String) (x : String) : List String :=
  if l.contains x then l else l ++ [x]

/-- JavaScript `Set.delete`. -/
def setDel (l : List String) (x : String) : List String :=
  l.filter (fun y => y != x)

/-- A speaking-state change event (AudioDuckingEngine `SpeakerEvent`). -/
structure SpeakerEvent where
  roomId : String
  participantId : String
  isSpeaking : Bool
  timestamp : ℚ
deriving DecidableEq

/-- Engine configuration (AudioDuckingEngine `DuckingConfig`). -/
structure DuckingConfig where
  enabled : Bool
  emergencyOverrideMs : ℚ
  staticSecondaryDuckMs : ℚ
  dynamicDuckMs : ℚ
  defaultHoldMs : ℚ
  maxSimultaneousSpeakers : Nat
deriving DecidableEq

/-- The constructor's default configuration. -/
def defaultConfig : DuckingConfig :=
  { enabled := true, emergencyOverrideMs := 50, staticSecondaryDuckMs := 100,
    dynamicDuckMs := 150, defaultHoldMs := 3000, maxSimultaneousSpeakers := 3 }

/-- One entry of the engine's active-speaker map. -/
structure ActiveSpeaker where
  roomId : String
  priority : ℚ
  startTime : ℚ
deriving DecidableEq

/-- A Web Audio gain parameter: the last value set with `setValueAtTime`
and the queue of pending `linearRampToValueAtTime` commands
(target, ramp-end time on the audio clock). -/
structure GainParam where
  value : ℚ
  ramps : List (ℚ × ℚ)
deriving DecidableEq

/-- `cancelScheduledValues(now)` followed by
`linearRampToValueAtTime(target, endTime)`. -/
def gainRampTo (g : GainParam) (target endTime : ℚ) : GainParam :=
  { g with ramps := [(target, endTime)] }

/-- A bare `linearRampToValueAtTime(target, endTime)` with no cancel
(as in `setUserSettings`). -/
def gainAppendRamp (g : GainParam) (target endTime : ℚ) : GainParam :=
  { g with ramps := g.ramps ++ [(target, endTime)] }

/-- `cancelScheduledValues(now)` followed by `setValueAtTime(v, now)`. -/
def gainSetValue (_g : GainParam) (v : ℚ) : GainParam :=
  { value := v, ramps := [] }

/-- The engine's whole mutable state: `this.state` (activeSpeakers,
gainNodes, roomPriorities, userSettings) plus `this.config`,
`this.roomData`, `this.holdTimeouts`, the connections made to
`this.masterGain`, and the audio clock. -/
structure EngineState where
  config : DuckingConfig
  activeSpeakers : List (String × ActiveSpeaker)
  gainNodes : List (String × GainParam)
  roomPriorities : List (String × ℚ)
  userSettings : List (String × UserTalkgroupSettings)
  roomData : List (String × TalkgroupRoom)
  holdTimeouts : List (String × ℚ)
  masterConnections : List String
  currentTime : ℚ
deriving DecidableEq

/-- A freshly constructed engine (`new DMRAudioDuckingEngine(ctx)`). -/
def emptyEngine : EngineState :=
  { config := defaultConfig, activeSpeakers := [], gainNodes := [],
    roomPriorities := [], userSettings := [], roomData := [],
    holdTimeouts := [], masterConnections := [], currentTime := 0 }

/-- `getUserVolume`: `userSetting?.isMuted ? 0 : (userSetting?.volume ?? 1.0)`. -/
def getUserVolume (s : EngineState) (roomId : String) : ℚ :=
  match mapGet s.userSettings roomId with
  | some u => if u.isMuted then 0 else u.volume
  | none => 1

/-- `getResponseTime`: response time by talkgroup type. -/
def getResponseTime (cfg : DuckingConfig) : TalkgroupType → ℚ
  | .staticPriority => cfg.emergencyOverrideMs
  | .staticSecondary => cfg.staticSecondaryDuckMs
  | .dynamic => cfg.dynamicDuckMs
  | .adhoc => cfg.dynamicDuckMs

/-- `getPriorityType`: classify a numeric priority into a talkgroup type. -/
def getPriorityType (priority : ℚ) : TalkgroupType :=
  if priority ≥ 100 then .staticPriority
  else if priority ≥ 80 then .staticSecondary
  else if priority ≥ 50 then .dynamic
  else .adhoc

/-- Whether some active speaker belongs to the given room
(the `hasActiveSpeaker` check inside `calculateTargetGain`). -/
def hasActiveSpeakerIn (s : EngineState) (roomName : String) : Bool :=
  s.activeSpeakers.any (fun p => p.2.roomId == roomName)

/-- `Math.max(...priorities)` over a non-empty list. -/
def listMax : List ℚ → ℚ
  | [] => 0
  | a :: t => t.foldl max a

/-- The `highestPriority` computed in `updateAllGainLevels`. -/
def highestActivePriority (s : EngineState) : ℚ :=
  listMax (s.activeSpeakers.map (fun p => p.2.priority))

/-- The `highestPriorityType` computed in `updateAllGainLevels`: it is
derived from the priority snapshot alone via `getPriorityType`. -/
def highestActiveType (s : EngineState) : TalkgroupType :=
  getPriorityType (highestActivePriority s)

/-- `clearHoldTimeout`. -/
def clearHoldTimeout (s : EngineState) (roomId : String) : EngineState :=
  { s with holdTimeouts := mapDelete s.holdTimeouts roomId }

/-- `restoreAllVolumes`: ramp every gain node back to the user volume over
200 ms. -/
def restoreAllVolumes (s : EngineState) : EngineState :=
  { s with gainNodes := s.gainNodes.map (fun p =>
      (p.1, gainRampTo p.2 (getUserVolume s p.1) (s.currentTime + 0.2))) }

/-- `initializeRooms` (identical in both engine variants): for each room,
store the room data and priority, create a fresh gain node, connect it to
the master gain, and set its initial value from the user settings. -/
def initializeRooms (s : EngineState) (rooms : List TalkgroupRoom) : EngineState :=
  rooms.foldl (fun t room =>
    let t1 := { t with
      roomData := mapSet t.roomData room.roomName room,
      roomPriorities := mapSet t.roomPriorities room.roomName room.priority }
    let initialVolume := getUserVolume t1 room.roomName
    { t1 with
      gainNodes := mapSet t1.gainNodes room.roomName
        { value := initialVolume, ramps := [] },
      masterConnections := t1.masterConnections ++ [room.roomName] }) s

/-- `setUserSettings` (identical in both engine variants): merge the
partial settings over the existing (or default) record, then ramp the
room's gain node to the new effective volume over 100 ms. -/
def setUserSettings (s : EngineState) (roomId : String)
    (muted : Option Bool) (vol : Option ℚ) (nowIso : String) : EngineState :=
  let existing := match mapGet s.userSettings roomId with
    | some u => u
    | none =>
      { userId := 0, talkgroupId := 0, isMuted := false, volume := 1,
        joinedAt := nowIso }
  let updated := { existing with
    isMuted := muted.getD existing.isMuted,
    volume := vol.getD existing.volume }
  let s1 := { s with userSettings := mapSet s.userSettings roomId updated }
  match mapGet s1.gainNodes roomId with
  | some g =>
    let targetVolume := if updated.isMuted then (0 : ℚ) else updated.volume
    { s1 with gainNodes :=
        (mapSet s1.gainNodes roomId
          (gainAppendRamp g targetVolume (s.currentTime + 0.1))) }
  | none => s1

/-- Projection of the stored (raw) volume of a room's user settings. -/
def readUserVolume (s : EngineState) (roomId : String) : Option ℚ :=
  (mapGet s.userSettings roomId).map (fun u => u.volume)

/-- JavaScript `x || fallback` on numbers: 0 is falsy. -/
def jsOrDefault (x fallback : ℚ) : ℚ :=
  if x = 0 then fallback else x

namespace DMR

/-- `calculateTargetGain` of the engine variant with the hard-coded DMR
routing rules (rules 1-4 and the default, in source order). -/
def calculateTargetGain (s : EngineState) (room : TalkgroupRoom)
    (highestPriorityType : TalkgroupType) (_highestPriority : ℚ) : ℚ :=
  if hasActiveSpeakerIn s room.roomName then getUserVolume s room.roomName
  else if highestPriorityType = .staticPriority then
    (if room.type = .staticPriority then 1 else 0)
  else if highestPriorityType = .staticSecondary then
    (if room.type = .staticSecondary then getUserVolume s room.roomName
     else if room.type = .dynamic ∨ room.type = .adhoc then
       0.1 * getUserVolume s room.roomName
     else getUserVolume s room.roomName)
  else if highestPriorityType = .dynamic then
    (if room.type = .dynamic then getUserVolume s room.roomName
     else getUserVolume s room.roomName)
  else if room.type = .staticPriority then
    max (getUserVolume s room.roomName) 0.8
  else getUserVolume s room.roomName

/-- `updateAllGainLevels` of the DMR-rules variant. -/
def updateAllGainLevels (s : EngineState) : EngineState :=
  if s.activeSpeakers.length = 0 then restoreAllVolumes s
  else
    { s with gainNodes := s.gainNodes.map (fun p =>
        match mapGet s.roomData p.1 with
        | none => p
        | some room =>
          (p.1, gainRampTo p.2
            (calculateTargetGain s room (highestActiveType s)
              (highestActivePriority s))
            (s.currentTime + getResponseTime s.config room.type / 1000))) }

/-- `startHoldTimeout` of the DMR-rules variant: a positive hold delay is
recorded as a pending deferred recomputation, otherwise the recomputation
runs at once. -/
def startHoldTimeout (s : EngineState) (roomId : String) (holdTimeMs : ℚ) :
    EngineState :=
  let s1 := clearHoldTimeout s roomId
  if holdTimeMs > 0 then
    { s1 with holdTimeouts := mapSet s1.holdTimeouts roomId holdTimeMs }
  else updateAllGainLevels s1

/-- `onSpeakerEvent` of the DMR-rules variant. -/
def onSpeakerEvent (s : EngineState) (ev : SpeakerEvent) : EngineState :=
  if s.config.enabled = false then s
  else
    let speakerKey := ev.roomId ++ ":" ++ ev.participantId
    match mapGet s.roomData ev.roomId with
    | none => s
    | some room =>
      if ev.isSpeaking then
        let s1 := { s with activeSpeakers :=
          (mapSet s.activeSpeakers speakerKey
            { roomId := ev.roomId, priority := room.priority,
              startTime := ev.timestamp }) }
        let s2 := clearHoldTimeout s1 ev.roomId
        updateAllGainLevels s2
      else
        match mapGet s.activeSpeakers speakerKey with
        | none => s
        | some _ =>
          let s1 := { s with
            activeSpeakers := mapDelete s.activeSpeakers speakerKey }
          let holdTime :=
            jsOrDefault (room.holdTimeSeconds * 1000) s.config.defaultHoldMs
          startHoldTimeout s1 ev.roomId holdTime

/-- `emergencyOverride` of the DMR-rules variant: refuse a target that is
not priority-static; otherwise zero every other gain node, force the
target to 1.0, and synthesize an active speaker. -/
def emergencyOverride (s : EngineState) (roomId : String) (dateNow : ℚ) :
    EngineState :=
  match mapGet s.roomData roomId with
  | none => s
  | some room =>
    if room.type ≠ .staticPriority then s
    else
      let s1 := { s with gainNodes := s.gainNodes.map (fun p =>
        if p.1 ≠ roomId then (p.1, gainSetValue p.2 0) else p) }
      let s2 := match mapGet s1.gainNodes roomId with
        | some g =>
          { s1 with gainNodes := mapSet s1.gainNodes roomId (gainSetValue g 1) }
        | none => s1
      onSpeakerEvent s2
        { roomId := roomId, participantId := "emergency-override",
          isSpeaking := true, timestamp := dateNow }

end DMR

namespace TBL

/-- `calculateTargetGain` of the engine variant that reads the
`TALKGROUP_PRIORITIES` table. -/
def calculateTargetGain (s : EngineState) (room : TalkgroupRoom)
    (highestPriorityType : TalkgroupType) (_highestPriority : ℚ) : ℚ :=
  if hasActiveSpeakerIn s room.roomName then getUserVolume s room.roomName
  else
    let roomPriorityConfig := TALKGROUP_PRIORITIES room.type
    if roomPriorityConfig.duckingBehavior.duckedBy.contains highestPriorityType
    then
      (TALKGROUP_PRIORITIES highestPriorityType).duckingBehavior.duckLevel *
        getUserVolume s room.roomName
    else if room.type = .staticPriority then getUserVolume s room.roomName
    else getUserVolume s room.roomName

/-- `updateAllGainLevels` of the table variant. -/
def updateAllGainLevels (s : EngineState) : EngineState :=
  if s.activeSpeakers.length = 0 then restoreAllVolumes s
  else
    { s with gainNodes := s.gainNodes.map (fun p =>
        match mapGet s.roomData p.1 with
        | none => p
        | some room =>
          (p.1, gainRampTo p.2
            (calculateTargetGain s room (highestActiveType s)
              (highestActivePriority s))
            (s.currentTime + getResponseTime s.config room.type / 1000))) }

/-- `startHoldTimeout` of the table variant. -/
def startHoldTimeout (s : EngineState) (roomId : String) (holdTimeMs : ℚ) :
    EngineState :=
  let s1 := clearHoldTimeout s roomId
  if holdTimeMs > 0 then
    { s1 with holdTimeouts := mapSet s1.holdTimeouts roomId holdTimeMs }
  else updateAllGainLevels s1

/-- `onSpeakerEvent` of the table variant. -/
def onSpeakerEvent (s : EngineState) (ev : SpeakerEvent) : EngineState :=
  if s.config.enabled = false then s
  else
    let speakerKey := ev.roomId ++ ":" ++ ev.participantId
    match mapGet s.roomData ev.roomId with
    | none => s
    | some room =>
      if ev.isSpeaking then
        let s1 := { s with activeSpeakers :=
          (mapSet s.activeSpeakers speakerKey
            { roomId := ev.roomId, priority := room.priority,
              startTime := ev.timestamp }) }
        let s2 := clearHoldTimeout s1 ev.roomId
        updateAllGainLevels s2
      else
        match mapGet s.activeSpeakers speakerKey with
        | none => s
        | some _ =>
          let s1 := { s with
            activeSpeakers := mapDelete s.activeSpeakers speakerKey }
          let holdTime :=
            jsOrDefault (room.holdTimeSeconds * 1000) s.config.defaultHoldMs
          startHoldTimeout s1 ev.roomId holdTime

/-- `emergencyOverride` of the table variant: no kind check at all — every
other gain node is zeroed and the target forced to 1.0 unconditionally. -/
def emergencyOverride (s : EngineState) (roomId : String) : EngineState :=
  let s1 := { s with gainNodes := s.gainNodes.map (fun p =>
    if p.1 ≠ roomId then (p.1, gainSetValue p.2 0) else p) }
  match mapGet s1.gainNodes roomId with
  | some g =>
    { s1 with gainNodes := mapSet s1.gainNodes roomId (gainSetValue g 1) }
  | none => s1

end TBL

namespace MTS

/-- The store's connection status union. -/
inductive ConnectionStatus where
  | disconnected
  | connecting
  | connected
  | error
deriving DecidableEq

/-- One talkgroup's entry in the store (`TalkgroupConnection`). -/
structure TalkgroupConnection where
  room : TalkgroupRoom
  isJoined : Bool
  isMuted : Bool
  volume : JSNum
  isActiveSpeaker : Bool
  lastActivity : Option ℚ
deriving DecidableEq

/-- Connection details handed to `connect` (types.ts `MultiConnectionDetails`). -/
structure MultiConnectionDetails where
  serverUrl : String
  participantToken : String
  participantName : String
  rooms : List TalkgroupRoom
deriving DecidableEq

/-- The coordinator store's state (`MultiTalkgroupState` data fields). -/
structure StoreState where
  isConnected : Bool
  connectionStatus : ConnectionStatus
  connectionDetails : Option MultiConnectionDetails
  talkgroups : List (String × TalkgroupConnection)
  activeSpeakers : List String
  priorityOrder : List String
  masterVolume : JSNum
  isDuckingEnabled : Bool
  isEmergencyActive : Bool
  emergencyRoomId : Option String
  defaultVolume : JSNum
  autoJoinStatic : Bool
  emergencyAlertEnabled : Bool
deriving DecidableEq

/-- The store's initial state. -/
def initialStoreState : StoreState :=
  { isConnected := false, connectionStatus := .disconnected,
    connectionDetails := none, talkgroups := [], activeSpeakers := [],
    priorityOrder := [], masterVolume := .val 0.8, isDuckingEnabled := true,
    isEmergencyActive := false, emergencyRoomId := none,
    defaultVolume := .val 1, autoJoinStatic := true,
    emergencyAlertEnabled := true }

/-- `room.type.startsWith('static')` on the kind tag. -/
def typeStartsWithStatic : TalkgroupType → Bool
  | .staticPriority => true
  | .staticSecondary => true
  | .dynamic => false
  | .adhoc => false

/-- Stable insertion of a room id into a priority-descending order (the
comparator `roomB.priority - roomA.priority`). -/
def insertByPriorityDesc (prio : String → ℚ) (x : String) :
    List String → List String
  | [] => [x]
  | y :: t =>
    if prio x > prio y then x :: y :: t else y :: insertByPriorityDesc prio x t

/-- The stable priority-descending sort used on `priorityOrder`. -/
def sortByPriorityDesc (prio : String → ℚ) (l : List String) : List String :=
  l.foldr (insertByPriorityDesc prio) []

/-- `connect`: build the talkgroup map (auto-joining static kinds when
`autoJoinStatic` is set), sort the priority order, and mark connected. -/
def connect (s : StoreState) (details : MultiConnectionDetails) : StoreState :=
  let talkgroupsMap := details.rooms.foldl (fun m room =>
    mapSet m room.roomName
      { room := room,
        isJoined := s.autoJoinStatic && typeStartsWithStatic room.type,
        isMuted := false,
        volume := s.defaultVolume,
        isActiveSpeaker := false,
        lastActivity := none }) []
  let pushedOrder := details.rooms.map (fun room => room.roomName)
  let prio := fun rid =>
    match mapGet talkgroupsMap rid with
    | some c => c.room.priority
    | none => 0
  { s with
    isConnected := true,
    connectionStatus := .connected,
    connectionDetails := some details,
    talkgroups := talkgroupsMap,
    priorityOrder := sortByPriorityDesc prio pushedOrder }

/-- `setVolume`: clamp through `Math.max(0, Math.min(1, volume))` and store. -/
def setVolume (s : StoreState) (roomId : String) (volume : JSNum) : StoreState :=
  match mapGet s.talkgroups roomId with
  | none => s
  | some c =>
    { s with talkgroups :=
        (mapSet s.talkgroups roomId
          { c with volume := jsMax (.val 0) (jsMin (.val 1) volume) }) }

/-- `toggleMute`. -/
def toggleMute (s : StoreState) (roomId : String) : StoreState :=
  match mapGet s.talkgroups roomId with
  | none => s
  | some c =>
    { s with talkgroups :=
        (mapSet s.talkgroups roomId { c with isMuted := !c.isMuted }) }

/-- `setSpeaking`: update the connection's speaker flag and the
active-speaker set, then recompute the emergency flag FROM THIS EVENT ONLY
(`isEmergencyActive` starts at false and is set only when the event's own
room is priority-static and starting to speak). -/
def setSpeaking (s : StoreState) (roomId : String) (isSpeaking : Bool)
    (now : ℚ) : StoreState :=
  match mapGet s.talkgroups roomId with
  | none => s
  | some c =>
    if c.isJoined then
      let c1 := { c with
        isActiveSpeaker := isSpeaking,
        lastActivity := if isSpeaking then some now else c.lastActivity }
      let talkgroups := mapSet s.talkgroups roomId c1
      let activeSpeakers :=
        if isSpeaking then setAdd s.activeSpeakers roomId
        else setDel s.activeSpeakers roomId
      let isEmergencyActiveNew : Bool :=
        decide (c.room.type = .staticPriority) && isSpeaking
      let emergencyRoomIdNew : Option String :=
        if isEmergencyActiveNew then some roomId else none
      { s with
        talkgroups := talkgroups,
        activeSpeakers := activeSpeakers,
        isEmergencyActive := isEmergencyActiveNew,
        emergencyRoomId := emergencyRoomIdNew }
    else s

/-- `setEmergencyActive`. -/
def setEmergencyActive (s : StoreState) (roomId : Option String) : StoreState :=
  { s with isEmergencyActive := roomId.isSome, emergencyRoomId := roomId }

/-- The persisted user-preference subset chosen by the persist middleware's
`partialize` option. -/
structure PersistedPrefs where
  defaultVolume : JSNum
  autoJoinStatic : Bool
  emergencyAlertEnabled : Bool
  masterVolume : JSNum
  isDuckingEnabled : Bool
deriving DecidableEq

/-- The `partialize` option: only the five user-preference fields. -/
def partialize (s : StoreState) : PersistedPrefs :=
  { defaultVolume := s.defaultVolume,
    autoJoinStatic := s.autoJoinStatic,
    emergencyAlertEnabled := s.emergencyAlertEnabled,
    masterVolume := s.masterVolume,
    isDuckingEnabled := s.isDuckingEnabled }

/-- The JSON document produced by the custom `serialize` option: the whole
state spread (`...state`), with `talkgroups` written as an entries array
and `activeSpeakers` as an array. -/
structure SerializedDoc where
  isConnected : Bool
  connectionStatus : ConnectionStatus
  connectionDetails : Option MultiConnectionDetails
  talkgroups : List (String × TalkgroupConnection)
  activeSpeakers : List String
  priorityOrder : List String
  masterVolume : JSNum
  isDuckingEnabled : Bool
  isEmergencyActive : Bool
  emergencyRoomId : Option String
  defaultVolume : JSNum
  autoJoinStatic : Bool
  emergencyAlertEnabled : Bool
deriving DecidableEq

/-- The custom `serialize` option applied to a state record. -/
def serializeStore (s : StoreState) : SerializedDoc :=
  { isConnected := s.isConnected,
    connectionStatus := s.connectionStatus,
    connectionDetails := s.connectionDetails,
    talkgroups := s.talkgroups,
    activeSpeakers := s.activeSpeakers,
    priorityOrder := s.priorityOrder,
    masterVolume := s.masterVolume,
    isDuckingEnabled := s.isDuckingEnabled,
    isEmergencyActive := s.isEmergencyActive,
    emergencyRoomId := s.emergencyRoomId,
    defaultVolume := s.defaultVolume,
    autoJoinStatic := s.autoJoinStatic,
    emergencyAlertEnabled := s.emergencyAlertEnabled }

end MTS

/-- The seeded 911 emergency room (priority-static, hold time 0, matching
the migration's '911-EMERGENCY' row and scenario S1's `emg`). -/
def emgRoom : TalkgroupRoom :=
  { roomName := "emg", talkgroupId := 1, talkgroupName := "911-EMERGENCY",
    type := .staticPriority, priority := 100, holdTimeSeconds := 0,
    canPublish := true, canSubscribe := true }

/-- A department channel (secondary-static, scenario S1's `gen`). -/
def genRoom : TalkgroupRoom :=
  { roomName := "gen", talkgroupId := 2, talkgroupName := "GENERAL",
    type := .staticSecondary, priority := 80, holdTimeSeconds := 2,
    canPublish := true, canSubscribe := true }

/-- A user channel (dynamic, scenario S1's `rd`). -/
def rdRoom : TalkgroupRoom :=
  { roomName := "rd", talkgroupId := 3, talkgroupName := "RND",
    type := .dynamic, priority := 50, holdTimeSeconds := 3,
    canPublish := true, canSubscribe := true }

/-- A fresh engine initialized with the given rooms. -/
def engineOf (rooms : List TalkgroupRoom) : EngineState :=
  initializeRooms emptyEngine rooms

/-- A speaker-start event in the 911 room. -/
def emgStart : SpeakerEvent :=
  { roomId := "emg", participantId := "p1", isSpeaking := true, timestamp := 1 }

/-- The matching speaker-stop event in the 911 room. -/
def emgStop : SpeakerEvent :=
  { roomId := "emg", participantId := "p1", isSpeaking := false, timestamp := 2 }

/-- A speaker-start event in the dynamic room. -/
def rdStart : SpeakerEvent :=
  { roomId := "rd", participantId := "p2", isSpeaking := true, timestamp := 2 }

/-- A speaker-start event in the department room. -/
def genStart : SpeakerEvent :=
  { roomId := "gen", participantId := "p1", isSpeaking := true, timestamp := 1 }

/-- The engine state right after `initializeRooms` on the 911 and dynamic
rooms (value of `engineOf [emgRoom, rdRoom]`). -/
def duckE0 : EngineState :=
  { config := defaultConfig,
    activeSpeakers := [],
    gainNodes := [("emg", { value := 1, ramps := [] }),
                  ("rd", { value := 1, ramps := [] })],
    roomPriorities := [("emg", 100), ("rd", 50)],
    userSettings := [],
    roomData := [("emg", emgRoom), ("rd", rdRoom)],
    holdTimeouts := [],
    masterConnections := ["emg", "rd"],
    currentTime := 0 }

/-- `duckE0` after the 911 speaker starts: the dynamic room is ducked to 0. -/
def duckE1 : EngineState :=
  { duckE0 with
    activeSpeakers := [("emg:p1", { roomId := "emg", priority := 100, startTime := 1 })],
    gainNodes := [("emg", { value := 1, ramps := [(1, 1/20)] }),
                  ("rd", { value := 1, ramps := [(0, 3/20)] })] }

/-- `duckE1` after the dynamic-room speaker also starts: its own-speaker
branch retargets the dynamic room to full user volume. -/
def duckE2 : EngineState :=
  { duckE0 with
    activeSpeakers := [("emg:p1", { roomId := "emg", priority := 100, startTime := 1 }),
                       ("rd:p2", { roomId := "rd", priority := 50, startTime := 2 })],
    gainNodes := [("emg", { value := 1, ramps := [(1, 1/20)] }),
                  ("rd", { value := 1, ramps := [(1, 3/20)] })] }

/-- C1 trace: 911 speaker starts, then the dynamic-room speaker starts. -/
def c1State : EngineState :=
  DMR.onSpeakerEvent (DMR.onSpeakerEvent (engineOf [emgRoom, rdRoom]) emgStart) rdStart

/-- C3 trace: 911 speaker starts, then stops (its hold time is 0). -/
def c3State : EngineState :=
  DMR.onSpeakerEvent (DMR.onSpeakerEvent (engineOf [emgRoom, rdRoom]) emgStart) emgStop

/-- `duckE1` after the 911 stop event: the speaker is gone, but instead of
an immediate recomputation a 3000 ms (default) hold timeout is pending and
every gain schedule is left as it was. -/
def c3StateV : EngineState :=
  { duckE1 with activeSpeakers := [], holdTimeouts := [("emg", 3000)] }

/-- The engine state right after `initializeRooms` on the 911 and
department rooms (value of `engineOf [emgRoom, genRoom]`). -/
def emgGenE0 : EngineState :=
  { config := defaultConfig,
    activeSpeakers := [],
    gainNodes := [("emg", { value := 1, ramps := [] }),
                  ("gen", { value := 1, ramps := [] })],
    roomPriorities := [("emg", 100), ("gen", 80)],
    userSettings := [],
    roomData := [("emg", emgRoom), ("gen", genRoom)],
    holdTimeouts := [],
    masterConnections := ["emg", "gen"],
    currentTime := 0 }

/-- C2 trace, first step: the user sets the 911 room volume to 1/2. -/
def c2Settings : EngineState :=
  setUserSettings (engineOf [emgRoom, genRoom]) "emg" none (some (1/2)) "now"

/-- Value of `c2Settings`. -/
def c2SettingsV : EngineState :=
  { emgGenE0 with
    gainNodes := [("emg", { value := 1, ramps := [(1/2, 1/10)] }),
                  ("gen", { value := 1, ramps := [] })],
    userSettings := [("emg",
      { userId := 0, talkgroupId := 0, isMuted := false, volume := 1/2,
        joinedAt := "now" })] }

/-- C2 trace: after the department speaker starts, the idle 911 room is
retargeted to its plain user volume 1/2 — no 0.8 floor is applied. -/
def c2State : EngineState :=
  DMR.onSpeakerEvent c2Settings genStart

/-- Value of `c2State`. -/
def c2StateV : EngineState :=
  { emgGenE0 with
    activeSpeakers := [("gen:p1", { roomId := "gen", priority := 80, startTime := 1 })],
    gainNodes := [("emg", { value := 1, ramps := [(1/2, 1/20)] }),
                  ("gen", { value := 1, ramps := [(1, 1/10)] })],
    userSettings := [("emg",
      { userId := 0, talkgroupId := 0, isMuted := false, volume := 1/2,
        joinedAt := "now" })] }

/-- The engine state right after `initializeRooms` on the department and
dynamic rooms (value of `engineOf [genRoom, rdRoom]`). -/
def genRdE0 : EngineState :=
  { config := defaultConfig,
    activeSpeakers := [],
    gainNodes := [("gen", { value := 1, ramps := [] }),
                  ("rd", { value := 1, ramps := [] })],
    roomPriorities := [("gen", 80), ("rd", 50)],
    userSettings := [],
    roomData := [("gen", genRoom), ("rd", rdRoom)],
    holdTimeouts := [],
    masterConnections := ["gen", "rd"],
    currentTime := 0 }

/-- C4 trace: department speaker starts under the table-based engine. -/
def c4State : EngineState :=
  TBL.onSpeakerEvent (engineOf [genRoom, rdRoom]) genStart

/-- Value of `c4State`: the dynamic room is ducked to 3/10 (duckLevel 0.3
from the table), not to 1/10. -/
def c4StateV : EngineState :=
  { genRdE0 with
    activeSpeakers := [("gen:p1", { roomId := "gen", priority := 80, startTime := 1 })],
    gainNodes := [("gen", { value := 1, ramps := [(1, 1/10)] }),
                  ("rd", { value := 1, ramps := [(3/10, 3/20)] })] }

/-- C5 trace: the table-variant `emergencyOverride` aimed at the
NON-emergency department room. -/
def c5State : EngineState :=
  TBL.emergencyOverride (engineOf [emgRoom, genRoom]) "gen"

/-- Value of `c5State`: the 911 room has been silenced although the target
of the override is not priority-static. -/
def c5StateV : EngineState :=
  { emgGenE0 with
    gainNodes := [("emg", { value := 0, ramps := [] }),
                  ("gen", { value := 1, ramps := [] })] }

/-- Connection details used by the coordinator-store traces. -/
def c6Details : MTS.MultiConnectionDetails :=
  { serverUrl := "wss://example", participantToken := "tok",
    participantName := "me", rooms := [emgRoom, genRoom] }

/-- The 911 room's store entry right after `connect`. -/
def emgConn0 : MTS.TalkgroupConnection :=
  { room := emgRoom, isJoined := true, isMuted := false, volume := .val 1,
    isActiveSpeaker := false, lastActivity := none }

/-- The department room's store entry right after `connect`. -/
def genConn0 : MTS.TalkgroupConnection :=
  { room := genRoom, isJoined := true, isMuted := false, volume := .val 1,
    isActiveSpeaker := false, lastActivity := none }

/-- C6 trace, step 1: `connect` with the 911 and department rooms. -/
def c6S1 : MTS.StoreState :=
  MTS.connect MTS.initialStoreState c6Details

/-- Value of `c6S1`. -/
def c6S1V : MTS.StoreState :=
  { isConnected := true, connectionStatus := .connected,
    connectionDetails := some c6Details,
    talkgroups := [("emg", emgConn0), ("gen", genConn0)],
    activeSpeakers := [],
    priorityOrder := ["emg", "gen"],
    masterVolume := .val 0.8, isDuckingEnabled := true,
    isEmergencyActive := false, emergencyRoomId := none,
    defaultVolume := .val 1, autoJoinStatic := true,
    emergencyAlertEnabled := true }

/-- C6 trace, step 2: the 911 speaker starts. -/
def c6S2 : MTS.StoreState :=
  MTS.setSpeaking c6S1 "emg" true 1

/-- Value of `c6S2`: the emergency flag is set. -/
def c6S2V : MTS.StoreState :=
  { c6S1V with
    talkgroups := [("emg", { emgConn0 with isActiveSpeaker := true, lastActivity := some 1 }),
                   ("gen", genConn0)],
    activeSpeakers := ["emg"],
    isEmergencyActive := true,
    emergencyRoomId := some "emg" }

/-- C6 trace, step 3: a speaker starts in the DIFFERENT (department) room
while the 911 speaker is still active. -/
def c6S3 : MTS.StoreState :=
  MTS.setSpeaking c6S2 "gen" true 2

/-- Value of `c6S3`: the emergency flag has been reset to false although
the 911 room still has an active speaker. -/
def c6S3V : MTS.StoreState :=
  { c6S1V with
    talkgroups := [("emg", { emgConn0 with isActiveSpeaker := true, lastActivity := some 1 }),
                   ("gen", { genConn0 with isActiveSpeaker := true, lastActivity := some 2 })],
    activeSpeakers := ["emg", "gen"],
    isEmergencyActive := false,
    emergencyRoomId := none }

/-- C7 trace: `initializeRooms` called a second time with the same set. -/
def c7State : EngineState :=
  initializeRooms (engineOf [emgRoom, rdRoom]) [emgRoom, rdRoom]

/-- Value of `c7State`: the same data and fresh gain nodes, but a second
pair of connections has been made to the master gain. -/
def c7StateV : EngineState :=
  { duckE0 with masterConnections := ["emg", "rd", "emg", "rd"] }

/-- C8 trace: the store's `setVolume` fed `NaN`. -/
def c8NanState : MTS.StoreState :=
  MTS.setVolume c6S1 "gen" JSNum.nan

/-- C8 trace: the engine's `setUserSettings` fed the out-of-range raw
volume -1/2 (the engine does not clamp). -/
def c8EngineState : EngineState :=
  setUserSettings (engineOf [emgRoom, genRoom]) "gen" none (some (-(1/2))) "t"

/-- A state whose single active speaker has priority 90, used to check
that the chosen ducking rule depends on the priority snapshot alone. -/
def c10sA : EngineState :=
  { emptyEngine with
    activeSpeakers := [("a:x", { roomId := "a", priority := 90, startTime := 0 })] }

/-- A different state (different rooms, speakers and timestamps) with the
same priority snapshot as `c10sA`. -/
def c10sB : EngineState :=
  { emptyEngine with
    activeSpeakers := [("b:y", { roomId := "b", priority := 90, startTime := 3 })],
    roomData := [("b", rdRoom)] }

theorem ratGe100of100 : ((100:ℚ) ≥ 100) = True := by norm_num

theorem ratGe100of80 : ((80:ℚ) ≥ 100) = False := by norm_num

theorem ratGe100of50 : ((50:ℚ) ≥ 100) = False := by norm_num

theorem ratGe80of80 : ((80:ℚ) ≥ 80) = True := by norm_num

theorem ratGe80of50 : ((50:ℚ) ≥ 80) = False := by norm_num

theorem ratGe50of50 : ((50:ℚ) ≥ 50) = True := by norm_num

theorem ratMax100and50 : max (100:ℚ) 50 = 100 := by norm_num

theorem ratDiv50 : (50:ℚ)/1000 = 1/20 := by norm_num

theorem ratDiv100 : (100:ℚ)/1000 = 1/10 := by norm_num

theorem ratDiv150 : (150:ℚ)/1000 = 3/20 := by norm_num

theorem ratAdd0 (x : ℚ) : (0:ℚ) + x = x := by norm_num

theorem ratPoint1 : (0.1:ℚ) = 1/10 := by norm_num

theorem ratPoint3 : (0.3:ℚ) = 3/10 := by norm_num

theorem ratPoint0 : (0.0:ℚ) = 0 := by norm_num

theorem ratGt0of3000 : ((3000:ℚ) > 0) = True := by norm_num

theorem ratGt80of100 : ((100:ℚ) > 80) = True := by norm_num

theorem decTTspsp :
    (decide (TalkgroupType.staticPriority = TalkgroupType.staticPriority)) = true := rfl

theorem decTTssSp :
    (decide (TalkgroupType.staticSecondary = TalkgroupType.staticPriority)) = false := rfl

theorem containsNilTT (t : TalkgroupType) :
    (([] : List TalkgroupType).contains t) = false := rfl

theorem containsSpOfSp :
    ([TalkgroupType.staticPriority].contains TalkgroupType.staticPriority) = true := rfl

theorem containsDynOfSp :
    ([TalkgroupType.staticPriority, TalkgroupType.staticSecondary].contains
      TalkgroupType.staticPriority) = true := rfl

theorem containsDynOfSs :
    ([TalkgroupType.staticPriority, TalkgroupType.staticSecondary].contains
      TalkgroupType.staticSecondary) = true := rfl

theorem containsAdhocOfSp :
    ([TalkgroupType.staticPriority, TalkgroupType.staticSecondary,
      TalkgroupType.dynamic].contains TalkgroupType.staticPriority) = true := rfl

theorem containsAdhocOfSs :
    ([TalkgroupType.staticPriority, TalkgroupType.staticSecondary,
      TalkgroupType.dynamic].contains TalkgroupType.staticSecondary) = true := rfl

theorem mapGet_mapSet_self {α : Type} (m : List (String × α)) (k : String) (v : α) :
    mapGet (mapSet m k v) k = some v := by
  induction m with
  | nil => simp [mapGet, mapSet]
  | cons p t ih =>
    cases p with
    | mk q w =>
      by_cases h : q = k <;> simp [mapGet, mapSet, h, ih]

theorem engineOfEmgRd_eval : engineOf [emgRoom, rdRoom] = duckE0 := by
  simp [engineOf, emptyEngine, initializeRooms, defaultConfig, mapGet, mapSet,
    getUserVolume, emgRoom, rdRoom, duckE0]

theorem engineOfEmgGen_eval : engineOf [emgRoom, genRoom] = emgGenE0 := by
  simp [engineOf, emptyEngine, initializeRooms, defaultConfig, mapGet, mapSet,
    getUserVolume, emgRoom, genRoom, emgGenE0]

theorem engineOfGenRd_eval : engineOf [genRoom, rdRoom] = genRdE0 := by
  simp [engineOf, emptyEngine, initializeRooms, defaultConfig, mapGet, mapSet,
    getUserVolume, genRoom, rdRoom, genRdE0]

theorem duckE1_eval : DMR.onSpeakerEvent duckE0 emgStart = duckE1 := by
  simp [DMR.onSpeakerEvent, DMR.updateAllGainLevels, DMR.calculateTargetGain,
    DMR.startHoldTimeout, clearHoldTimeout, restoreAllVolumes, getUserVolume,
    getResponseTime, getPriorityType, hasActiveSpeakerIn, highestActiveType,
    highestActivePriority, listMax, mapGet, mapSet, mapDelete, gainRampTo,
    jsOrDefault, emgRoom, rdRoom, defaultConfig, duckE0, duckE1, emgStart,
    ratGe100of100, ratGe100of80, ratGe100of50, ratGe80of80, ratGe80of50,
    ratGe50of50, ratMax100and50, ratDiv50, ratDiv100, ratDiv150, ratAdd0]

theorem duckE2_eval : DMR.onSpeakerEvent duckE1 rdStart = duckE2 := by
  simp [DMR.onSpeakerEvent, DMR.updateAllGainLevels, DMR.calculateTargetGain,
    DMR.startHoldTimeout, clearHoldTimeout, restoreAllVolumes, getUserVolume,
    getResponseTime, getPriorityType, hasActiveSpeakerIn, highestActiveType,
    highestActivePriority, listMax, mapGet, mapSet, mapDelete, gainRampTo,
    jsOrDefault, emgRoom, rdRoom, defaultConfig, duckE0, duckE1, duckE2, rdStart,
    ratGe100of100, ratGe100of80, ratGe100of50, ratGe80of80, ratGe80of50,
    ratGe50of50, ratMax100and50, ratDiv50, ratDiv100, ratDiv150, ratAdd0]

theorem c1State_eval : c1State = duckE2 := by
  unfold c1State
  rw [engineOfEmgRd_eval, duckE1_eval, duckE2_eval]

theorem c3State_eval : c3State = c3StateV := by
  unfold c3State
  rw [engineOfEmgRd_eval, duckE1_eval]
  simp [DMR.onSpeakerEvent, DMR.startHoldTimeout, clearHoldTimeout,
    mapGet, mapSet, mapDelete, jsOrDefault, emgRoom, rdRoom, defaultConfig,
    duckE0, duckE1, c3StateV, emgStop, ratGt0of3000]

theorem c2Settings_eval : c2Settings = c2SettingsV := by
  unfold c2Settings
  rw [engineOfEmgGen_eval]
  simp [setUserSettings, readUserVolume, mapGet, mapSet, gainAppendRamp,
    emgGenE0, c2SettingsV, emgRoom, genRoom, defaultConfig, ratAdd0, ratPoint1]

theorem c2State_eval : c2State = c2StateV := by
  unfold c2State
  rw [c2Settings_eval]
  simp [DMR.onSpeakerEvent, DMR.updateAllGainLevels, DMR.calculateTargetGain,
    DMR.startHoldTimeout, clearHoldTimeout, restoreAllVolumes, getUserVolume,
    getResponseTime, getPriorityType, hasActiveSpeakerIn, highestActiveType,
    highestActivePriority, listMax, mapGet, mapSet, mapDelete, gainRampTo,
    jsOrDefault, emgRoom, genRoom, defaultConfig, emgGenE0, c2SettingsV,
    c2StateV, genStart, ratGe100of100, ratGe100of80, ratGe100of50,
    ratGe80of80, ratGe80of50, ratGe50of50, ratDiv50, ratDiv100, ratDiv150,
    ratAdd0]

theorem c4State_eval : c4State = c4StateV := by
  unfold c4State
  rw [engineOfGenRd_eval]
  simp [TBL.onSpeakerEvent, TBL.updateAllGainLevels, TBL.calculateTargetGain,
    TBL.startHoldTimeout, clearHoldTimeout, restoreAllVolumes, getUserVolume,
    getResponseTime, getPriorityType, hasActiveSpeakerIn, highestActiveType,
    highestActivePriority, listMax, mapGet, mapSet, mapDelete, gainRampTo,
    jsOrDefault, genRoom, rdRoom, defaultConfig, genRdE0, c4StateV, genStart,
    TALKGROUP_PRIORITIES, containsDynOfSs, containsDynOfSp, containsSpOfSp,
    containsNilTT, ratGe100of80, ratGe80of80, ratGe100of50, ratGe80of50,
    ratGe50of50, ratDiv100, ratDiv150, ratAdd0, ratPoint3]

theorem c5State_eval : c5State = c5StateV := by
  unfold c5State
  rw [engineOfEmgGen_eval]
  simp [TBL.emergencyOverride, gainSetValue, mapGet, mapSet, emgGenE0,
    c5StateV, emgRoom, genRoom]

theorem c6S1_eval : c6S1 = c6S1V := by
  unfold c6S1
  simp [MTS.connect, MTS.initialStoreState, mapGet, mapSet,
    MTS.typeStartsWithStatic, MTS.sortByPriorityDesc, MTS.insertByPriorityDesc,
    c6Details, emgRoom, genRoom, c6S1V, emgConn0, genConn0, ratGt80of100]

theorem c6S2_eval : c6S2 = c6S2V := by
  unfold c6S2
  rw [c6S1_eval]
  simp [MTS.setSpeaking, mapGet, mapSet, setAdd, setDel, c6S1V, c6S2V,
    emgConn0, genConn0, emgRoom, genRoom, decTTspsp]

theorem c6S3_eval : c6S3 = c6S3V := by
  unfold c6S3
  rw [c6S2_eval]
  simp [MTS.setSpeaking, mapGet, mapSet, setAdd, setDel, c6S1V, c6S2V, c6S3V,
    emgConn0, genConn0, emgRoom, genRoom, decTTssSp]

theorem c7State_eval : c7State = c7StateV := by
  unfold c7State
  rw [engineOfEmgRd_eval]
  simp [initializeRooms, mapGet, mapSet, getUserVolume, duckE0, c7StateV,
    emgRoom, rdRoom, defaultConfig]

theorem c8Nan_eval :
    mapGet c8NanState.talkgroups "gen" = some { genConn0 with volume := JSNum.nan } := by
  unfold c8NanState
  rw [c6S1_eval]
  simp [MTS.setVolume, jsMin, jsMax, mapGet, mapSet, c6S1V, genConn0]

theorem c8Engine_eval : readUserVolume c8EngineState "gen" = some (-(1/2)) := by
  unfold c8EngineState
  rw [engineOfEmgGen_eval]
  simp [setUserSettings, readUserVolume, mapGet, mapSet, gainAppendRamp,
    emgGenE0]

theorem ratMax0and1 : max (0:ℚ) 1 = 1 := by norm_num

theorem le_foldl_max (t : List ℚ) : ∀ a : ℚ, a ≤ t.foldl max a := by
  induction t with
  | nil => intro a; exact le_refl a
  | cons b t ih => intro a; exact le_trans (le_max_left a b) (ih (max a b))

theorem mem_le_foldl_max (t : List ℚ) : ∀ (a x : ℚ), x ∈ t → x ≤ t.foldl max a := by
  induction t with
  | nil => intro a x hx; cases hx
  | cons b t ih =>
    intro a x hx
    cases hx with
    | head => exact le_trans (le_max_right a b) (le_foldl_max t (max a b))
    | tail _ h => exact ih (max a b) x h

theorem le_listMax {x : ℚ} {l : List ℚ} (hx : x ∈ l) : x ≤ listMax l := by
  cases l with
  | nil => cases hx
  | cons b t =>
    rcases List.mem_cons.mp hx with rfl | h
    · exact le_foldl_max t x
    · exact mem_le_foldl_max t b x h

/-- C1 counterexample: in the engine's own recomputation after a 911
speaker and a dynamic-room speaker both start, the dynamic room — not the
emergency talkgroup, and with a priority-static speaker active — is
targeted at gain 1, far above 0.0001, because its own-speaker branch fires
first. -/
theorem c1_counterexample :
    hasActiveSpeakerIn c1State "emg" = true
    ∧ emgRoom.type = TalkgroupType.staticPriority
    ∧ highestActiveType c1State = TalkgroupType.staticPriority
    ∧ rdRoom.type ≠ TalkgroupType.staticPriority
    ∧ mapGet c1State.gainNodes "rd" = some { value := 1, ramps := [(1, 3/20)] }
    ∧ ¬ ((1:ℚ) ≤ 1/10000) := by
  refine ⟨?_, rfl, ?_, ?_, ?_, by norm_num⟩
  · rw [c1State_eval]; simp [hasActiveSpeakerIn, duckE2, duckE0]
  · rw [c1State_eval]
    simp [highestActiveType, highestActivePriority, listMax, duckE2, duckE0,
      getPriorityType, ratMax100and50, ratGe100of100]
  · simp [rdRoom]
  · rw [c1State_eval]; simp [mapGet, duckE2, duckE0]

/-- C1 amended: when some active speaker's priority snapshot is in the
priority-static band, the engine classifies the recomputation as
priority-static, and every non-emergency talkgroup WITHOUT an active
speaker of its own is targeted at gain ≤ 0.0001 (in both engine
variants); a non-emergency talkgroup with its own active speaker keeps
its user volume instead (see the counterexample). -/
theorem c1_amended (s : EngineState) (room : TalkgroupRoom) (hp pr : ℚ)
    (hmem : pr ∈ s.activeSpeakers.map (fun p => p.2.priority))
    (hpr : 100 ≤ pr)
    (hk : room.type ≠ TalkgroupType.staticPriority)
    (hno : hasActiveSpeakerIn s room.roomName = false) :
    highestActiveType s = TalkgroupType.staticPriority
    ∧ DMR.calculateTargetGain s room (highestActiveType s) hp ≤ 1/10000
    ∧ TBL.calculateTargetGain s room (highestActiveType s) hp ≤ 1/10000 := by
  have hmax : 100 ≤ highestActivePriority s := le_trans hpr (le_listMax hmem)
  have hht : highestActiveType s = TalkgroupType.staticPriority := by
    unfold highestActiveType getPriorityType
    rw [if_pos hmax]
  rw [hht]
  refine ⟨rfl, ?_, ?_⟩
  · have h1 : DMR.calculateTargetGain s room TalkgroupType.staticPriority hp = 0 := by
      simp [DMR.calculateTargetGain, hno, hk]
    rw [h1]; norm_num
  · have h2 : TBL.calculateTargetGain s room TalkgroupType.staticPriority hp = 0 := by
      cases hrt : room.type with
      | staticPriority => exact absurd hrt hk
      | staticSecondary =>
        simp [TBL.calculateTargetGain, hno, hrt, TALKGROUP_PRIORITIES,
          containsSpOfSp, ratPoint0]
      | dynamic =>
        simp [TBL.calculateTargetGain, hno, hrt, TALKGROUP_PRIORITIES,
          containsDynOfSp, ratPoint0]
      | adhoc =>
        simp [TBL.calculateTargetGain, hno, hrt, TALKGROUP_PRIORITIES,
          containsAdhocOfSp, ratPoint0]
    rw [h2]; norm_num

/-- Witness for the C1 amended theorem at a concrete reachable state. -/
theorem c1_amended_witness :
    highestActiveType duckE1 = TalkgroupType.staticPriority
    ∧ DMR.calculateTargetGain duckE1 rdRoom (highestActiveType duckE1) 100 ≤ 1/10000
    ∧ TBL.calculateTargetGain duckE1 rdRoom (highestActiveType duckE1) 100 ≤ 1/10000 :=
  c1_amended duckE1 rdRoom 100 100 (by simp [duckE1, duckE0]) (le_refl 100)
    (by simp [rdRoom]) (by simp [hasActiveSpeakerIn, duckE1, duckE0, rdRoom])

/-- C2 counterexample: with the 911 room idle at user volume 1/2 and a
secondary-static speaker active, the engine's recomputation targets the
911 room at 1/2 — its plain user volume — not at max(1/2, 0.8) = 0.8. -/
theorem c2_counterexample :
    emgRoom.type = TalkgroupType.staticPriority
    ∧ hasActiveSpeakerIn c2State "emg" = false
    ∧ c2State.activeSpeakers ≠ []
    ∧ getUserVolume c2State "emg" = 1/2
    ∧ mapGet c2State.gainNodes "emg" = some { value := 1, ramps := [(1/2, 1/20)] }
    ∧ max ((1:ℚ)/2) 0.8 = 4/5
    ∧ ((1:ℚ)/2) ≠ 4/5 := by
  refine ⟨rfl, ?_, ?_, ?_, ?_, by norm_num, by norm_num⟩
  · rw [c2State_eval]; simp [hasActiveSpeakerIn, c2StateV, emgGenE0]
  · rw [c2State_eval]; simp [c2StateV, emgGenE0]
  · rw [c2State_eval]; simp [getUserVolume, mapGet, c2StateV, emgGenE0]
  · rw [c2State_eval]; simp [mapGet, c2StateV, emgGenE0]

/-- C2 amended: for a priority-static talkgroup T with no active speaker
of its own, the DMR-rules engine applies the max(volume, 0.8) floor ONLY
when the highest-priority active kind is adhoc; during secondary-static or
dynamic speech T gets its plain user volume, during priority-static speech
it gets 1.0, and the table-based variant never applies a floor at all. -/
theorem c2_amended (s : EngineState) (room : TalkgroupRoom) (hp : ℚ)
    (hk : room.type = TalkgroupType.staticPriority)
    (hno : hasActiveSpeakerIn s room.roomName = false) :
    DMR.calculateTargetGain s room TalkgroupType.adhoc hp
      = max (getUserVolume s room.roomName) 0.8
    ∧ DMR.calculateTargetGain s room TalkgroupType.staticSecondary hp
      = getUserVolume s room.roomName
    ∧ DMR.calculateTargetGain s room TalkgroupType.dynamic hp
      = getUserVolume s room.roomName
    ∧ DMR.calculateTargetGain s room TalkgroupType.staticPriority hp = 1
    ∧ ∀ ht, TBL.calculateTargetGain s room ht hp = getUserVolume s room.roomName := by
  refine ⟨?_, ?_, ?_, ?_, fun ht => ?_⟩
  · simp [DMR.calculateTargetGain, hno, hk]
  · simp [DMR.calculateTargetGain, hno, hk]
  · simp [DMR.calculateTargetGain, hno, hk]
  · simp [DMR.calculateTargetGain, hno, hk]
  · simp [TBL.calculateTargetGain, hno, hk, TALKGROUP_PRIORITIES, containsNilTT]

/-- Witness for the C2 amended theorem at a concrete state. -/
theorem c2_amended_witness :
    DMR.calculateTargetGain emgGenE0 emgRoom TalkgroupType.adhoc 40
      = max (getUserVolume emgGenE0 emgRoom.roomName) 0.8
    ∧ DMR.calculateTargetGain emgGenE0 emgRoom TalkgroupType.staticSecondary 40
      = getUserVolume emgGenE0 emgRoom.roomName
    ∧ DMR.calculateTargetGain emgGenE0 emgRoom TalkgroupType.dynamic 40
      = getUserVolume emgGenE0 emgRoom.roomName
    ∧ DMR.calculateTargetGain emgGenE0 emgRoom TalkgroupType.staticPriority 40 = 1
    ∧ ∀ ht, TBL.calculateTargetGain emgGenE0 emgRoom ht 40
        = getUserVolume emgGenE0 emgRoom.roomName :=
  c2_amended emgGenE0 emgRoom 40 rfl (by simp [hasActiveSpeakerIn, emgGenE0])

/-- C3 (code bug): a stop event on the 911 room, whose configured hold
time is 0, does NOT recompute immediately: `holdTimeSeconds * 1000 ||
defaultHoldMs` turns the 0 into the 3000 ms default, so a 3000 ms hold
timeout is left pending and every gain schedule stays as it was (the
dynamic room stays ducked at 0). -/
theorem c3_code_bug :
    emgRoom.holdTimeSeconds = 0
    ∧ jsOrDefault (emgRoom.holdTimeSeconds * 1000) defaultConfig.defaultHoldMs = 3000
    ∧ c3State.activeSpeakers = []
    ∧ c3State.holdTimeouts = [("emg", 3000)]
    ∧ c3State.gainNodes = [("emg", { value := 1, ramps := [(1, 1/20)] }),
                           ("rd", { value := 1, ramps := [(0, 3/20)] })] := by
  refine ⟨rfl, ?_, ?_, ?_, ?_⟩
  · simp [jsOrDefault, emgRoom, defaultConfig]
  · rw [c3State_eval]; simp [c3StateV, duckE1, duckE0]
  · rw [c3State_eval]; simp [c3StateV, duckE1, duckE0]
  · rw [c3State_eval]; simp [c3StateV, duckE1, duckE0]

/-- C4 counterexample: under the table-based engine a recomputation with a
secondary-static speaker as highest targets the idle dynamic room at
duckLevel 0.3 x volume = 3/10, not 0.1 x volume. -/
theorem c4_counterexample :
    rdRoom.type = TalkgroupType.dynamic
    ∧ hasActiveSpeakerIn c4State "rd" = false
    ∧ highestActiveType c4State = TalkgroupType.staticSecondary
    ∧ getUserVolume c4State "rd" = 1
    ∧ mapGet c4State.gainNodes "rd" = some { value := 1, ramps := [(3/10, 3/20)] }
    ∧ (3:ℚ)/10 ≠ 0.1 * 1 := by
  refine ⟨rfl, ?_, ?_, ?_, ?_, by norm_num⟩
  · rw [c4State_eval]; simp [hasActiveSpeakerIn, c4StateV, genRdE0]
  · rw [c4State_eval]
    simp [highestActiveType, highestActivePriority, listMax, c4StateV, genRdE0,
      getPriorityType, ratGe100of80, ratGe80of80]
  · rw [c4State_eval]; simp [getUserVolume, mapGet, c4StateV, genRdE0]
  · rw [c4State_eval]; simp [mapGet, c4StateV, genRdE0]

/-- C4 amended: when the highest-priority active kind is secondary-static,
a dynamic or adhoc talkgroup with no active speaker of its own is targeted
at 0.1 x its user volume by the hard-coded DMR-rules engine, but at
0.3 x its user volume (the table's duckLevel) by the table-based engine. -/
theorem c4_amended (s : EngineState) (room : TalkgroupRoom) (hp : ℚ)
    (hk : room.type = TalkgroupType.dynamic ∨ room.type = TalkgroupType.adhoc)
    (hno : hasActiveSpeakerIn s room.roomName = false) :
    DMR.calculateTargetGain s room TalkgroupType.staticSecondary hp
      = 0.1 * getUserVolume s room.roomName
    ∧ TBL.calculateTargetGain s room TalkgroupType.staticSecondary hp
      = 0.3 * getUserVolume s room.roomName := by
  rcases hk with h | h
  · constructor
    · simp [DMR.calculateTargetGain, hno, h]
    · simp [TBL.calculateTargetGain, hno, h, TALKGROUP_PRIORITIES, containsDynOfSs]
  · constructor
    · simp [DMR.calculateTargetGain, hno, h]
    · simp [TBL.calculateTargetGain, hno, h, TALKGROUP_PRIORITIES, containsAdhocOfSs]

/-- Witness for the C4 amended theorem at a concrete state. -/
theorem c4_amended_witness :
    DMR.calculateTargetGain genRdE0 rdRoom TalkgroupType.staticSecondary 80
      = 0.1 * getUserVolume genRdE0 rdRoom.roomName
    ∧ TBL.calculateTargetGain genRdE0 rdRoom TalkgroupType.staticSecondary 80
      = 0.3 * getUserVolume genRdE0 rdRoom.roomName :=
  c4_amended genRdE0 rdRoom 80 (Or.inl rfl) (by simp [hasActiveSpeakerIn, genRdE0])

/-- C5 counterexample: the table-based variant's `emergencyOverride` has
no kind guard — called on the NON-priority-static department room it still
silences the 911 room and changes the engine state, instead of failing
with no state change. -/
theorem c5_counterexample :
    genRoom.type ≠ TalkgroupType.staticPriority
    ∧ mapGet c5State.gainNodes "emg" = some { value := 0, ramps := [] }
    ∧ mapGet (engineOf [emgRoom, genRoom]).gainNodes "emg"
        = some { value := 1, ramps := [] }
    ∧ c5State ≠ engineOf [emgRoom, genRoom] := by
  have h1 : mapGet c5State.gainNodes "emg" = some { value := 0, ramps := [] } := by
    rw [c5State_eval]; simp [mapGet, c5StateV, emgGenE0]
  have h2 : mapGet (engineOf [emgRoom, genRoom]).gainNodes "emg"
      = some { value := 1, ramps := [] } := by
    rw [engineOfEmgGen_eval]; simp [mapGet, emgGenE0]
  refine ⟨by simp [genRoom], h1, h2, ?_⟩
  intro h
  rw [h, h2] at h1
  have hv := congrArg GainParam.value (Option.some.inj h1)
  norm_num at hv

/-- C5 amended: in the DMR-rules variant, `emergencyOverride` on a room
that is unknown or whose kind is not priority-static returns with NO state
change whatsoever (only a warning is logged; no InvalidEmergencyTarget
error value exists in the code); the table-based variant applies the
override unconditionally (see the counterexample). -/
theorem c5_amended (s : EngineState) (roomId : String) (dateNow : ℚ)
    (h : (mapGet s.roomData roomId).all
        (fun room => room.type != TalkgroupType.staticPriority) = true) :
    DMR.emergencyOverride s roomId dateNow = s := by
  cases hr : mapGet s.roomData roomId with
  | none => simp [DMR.emergencyOverride, hr]
  | some room =>
    have hne : room.type ≠ TalkgroupType.staticPriority := by
      rw [hr] at h
      simpa [Option.all] using h
    simp [DMR.emergencyOverride, hr, hne]

/-- Witness for the C5 amended theorem: overriding the department room is
a no-op in the DMR-rules variant. -/
theorem c5_amended_witness :
    DMR.emergencyOverride (engineOf [emgRoom, genRoom]) "gen" 5
      = engineOf [emgRoom, genRoom] :=
  c5_amended (engineOf [emgRoom, genRoom]) "gen" 5 (by rfl)

theorem initializeRooms_cons (s : EngineState) (room : TalkgroupRoom)
    (rest : List TalkgroupRoom) :
    initializeRooms s (room :: rest)
      = initializeRooms (initializeRooms s [room]) rest := by
  simp [initializeRooms, List.foldl]

theorem initializeRooms_single (s : EngineState) (room : TalkgroupRoom) :
    (initializeRooms s [room]).config = s.config
    ∧ (initializeRooms s [room]).activeSpeakers = s.activeSpeakers
    ∧ (initializeRooms s [room]).userSettings = s.userSettings
    ∧ (initializeRooms s [room]).holdTimeouts = s.holdTimeouts
    ∧ (initializeRooms s [room]).currentTime = s.currentTime
    ∧ (initializeRooms s [room]).masterConnections
        = s.masterConnections ++ [room.roomName] := by
  simp [initializeRooms, List.foldl]

/-- C6 (code bug): after `connect` with the 911 and department rooms and a
911 speaker start, `isEmergencyActive` is true; processing a speaker start
for the DIFFERENT department room then resets the flag to false, although
the 911 room still has an active speaker of priority-static kind —
`setSpeaking` recomputes the flag from the current event alone instead of
from the active-speaker set. -/
theorem c6_code_bug :
    c6S2.isEmergencyActive = true
    ∧ (mapGet c6S2.talkgroups "emg").map (fun c => c.room.type)
        = some TalkgroupType.staticPriority
    ∧ c6S3.isEmergencyActive = false
    ∧ c6S3.activeSpeakers.contains "emg" = true
    ∧ (mapGet c6S3.talkgroups "emg").map (fun c => c.isActiveSpeaker) = some true
    ∧ (mapGet c6S3.talkgroups "emg").map (fun c => c.room.type)
        = some TalkgroupType.staticPriority := by
  refine ⟨?_, ?_, ?_, ?_, ?_, ?_⟩ <;>
    first
    | (rw [c6S2_eval]; simp [mapGet, c6S2V, c6S1V, emgConn0, genConn0, emgRoom])
    | (rw [c6S3_eval]; simp [mapGet, c6S3V, c6S1V, emgConn0, genConn0, emgRoom])

/-- C7 counterexample: calling `initializeRooms` a second time with the
same talkgroup set is NOT a no-op — each call creates a fresh gain node
per room and connects it to the master gain, so the connection list has
doubled — and no call fails (there is no KindMismatch in the code). -/
theorem c7_counterexample :
    c7State.masterConnections = ["emg", "rd", "emg", "rd"]
    ∧ (engineOf [emgRoom, rdRoom]).masterConnections = ["emg", "rd"]
    ∧ c7State ≠ engineOf [emgRoom, rdRoom] := by
  have h1 : c7State.masterConnections = ["emg", "rd", "emg", "rd"] := by
    rw [c7State_eval]; simp [c7StateV, duckE0]
  have h2 : (engineOf [emgRoom, rdRoom]).masterConnections = ["emg", "rd"] := by
    rw [engineOfEmgRd_eval]; simp [duckE0]
  refine ⟨h1, h2, ?_⟩
  intro h
  rw [h, h2] at h1
  simp at h1

/-- C7 amended: `initializeRooms` never fails (it is total: a different
set raises no KindMismatch) and every call — including a repeated one —
leaves the speakers, settings, timers, config and clock unchanged while
appending one fresh master-gain connection per given room, which is why a
second call with the same set is not a no-op. -/
theorem c7_amended (s : EngineState) (rooms : List TalkgroupRoom) :
    (initializeRooms s rooms).config = s.config
    ∧ (initializeRooms s rooms).activeSpeakers = s.activeSpeakers
    ∧ (initializeRooms s rooms).userSettings = s.userSettings
    ∧ (initializeRooms s rooms).holdTimeouts = s.holdTimeouts
    ∧ (initializeRooms s rooms).currentTime = s.currentTime
    ∧ (initializeRooms s rooms).masterConnections
        = s.masterConnections ++ rooms.map (fun r => r.roomName) := by
  induction rooms generalizing s with
  | nil => simp [initializeRooms, List.foldl]
  | cons room rest ih =>
    rw [initializeRooms_cons]
    obtain ⟨g1, g2, g3, g4, g5, g6⟩ := initializeRooms_single s room
    obtain ⟨h1, h2, h3, h4, h5, h6⟩ := ih (initializeRooms s [room])
    refine ⟨?_, ?_, ?_, ?_, ?_, ?_⟩
    · rw [h1, g1]
    · rw [h2, g2]
    · rw [h3, g3]
    · rw [h4, g4]
    · rw [h5, g5]
    · rw [h6, g6]; simp

/-- C8 counterexample: the store's `setVolume` stores `NaN` unchanged
(`Math.max(0, Math.min(1, NaN))` is `NaN`), not 0 or 1; and the engine's
`setUserSettings` applies no clamp at all, so -1/2 reads back as -1/2. -/
theorem c8_counterexample :
    mapGet c8NanState.talkgroups "gen" = some { genConn0 with volume := JSNum.nan }
    ∧ JSNum.nan ≠ JSNum.val 0
    ∧ JSNum.nan ≠ JSNum.val 1
    ∧ readUserVolume c8EngineState "gen" = some (-(1/2))
    ∧ ¬ ((0:ℚ) ≤ -(1/2)) :=
  ⟨c8Nan_eval, by simp, by simp, c8Engine_eval, by norm_num⟩

/-- C8 amended: the store's `setVolume` round-trips every FINITE value as
its clamp to [0,1] and maps the infinities to the bounds, but stores NaN
as NaN; the engine's `setUserSettings` stores the raw value with no clamp;
neither path can fail. -/
theorem c8_amended :
    (∀ (s : MTS.StoreState) (rid : String) (c : MTS.TalkgroupConnection) (q : ℚ),
        mapGet s.talkgroups rid = some c →
        mapGet (MTS.setVolume s rid (JSNum.val q)).talkgroups rid
          = some { c with volume := JSNum.val (max 0 (min 1 q)) })
    ∧ (∀ (s : MTS.StoreState) (rid : String) (c : MTS.TalkgroupConnection),
        mapGet s.talkgroups rid = some c →
        mapGet (MTS.setVolume s rid JSNum.posInf).talkgroups rid
          = some { c with volume := JSNum.val 1 })
    ∧ (∀ (s : MTS.StoreState) (rid : String) (c : MTS.TalkgroupConnection),
        mapGet s.talkgroups rid = some c →
        mapGet (MTS.setVolume s rid JSNum.negInf).talkgroups rid
          = some { c with volume := JSNum.val 0 })
    ∧ (∀ (s : EngineState) (rid : String) (v : ℚ) (nowIso : String),
        readUserVolume (setUserSettings s rid none (some v) nowIso) rid = some v) := by
  refine ⟨fun s rid c q hc => ?_, fun s rid c hc => ?_, fun s rid c hc => ?_,
    fun s rid v nowIso => ?_⟩
  · simp [MTS.setVolume, hc, jsMin, jsMax, mapGet_mapSet_self]
  · simp [MTS.setVolume, hc, jsMin, jsMax, mapGet_mapSet_self, ratMax0and1]
  · simp [MTS.setVolume, hc, jsMin, jsMax, mapGet_mapSet_self]
  · simp only [setUserSettings]
    cases hm : mapGet s.userSettings rid <;>
      cases hg : mapGet s.gainNodes rid <;>
      simp [hm, hg, readUserVolume, mapGet_mapSet_self]

/-- Witness for the C8 amended theorem at concrete inputs. -/
theorem c8_amended_witness :
    mapGet (MTS.setVolume c6S1V "gen" (JSNum.val 5)).talkgroups "gen"
      = some { genConn0 with volume := JSNum.val (max 0 (min 1 5)) }
    ∧ readUserVolume (setUserSettings emgGenE0 "gen" none (some 7) "iso") "gen"
      = some 7 :=
  ⟨c8_amended.1 c6S1V "gen" genConn0 5 (by simp [mapGet, c6S1V]),
   c8_amended.2.2.2 emgGenE0 "gen" 7 "iso"⟩

/-- C9 (code bug): `partialize` restricts the persisted state to exactly
the five user-preference fields, but the custom `serialize` option spreads
the whole state and explicitly embeds the talkgroup map, the
active-speaker set and (via the spread) the emergency flag into the
persisted JSON document, contradicting the never-persisted rule. -/
theorem c9_code_bug :
    MTS.partialize c6S2
      = { defaultVolume := JSNum.val 1, autoJoinStatic := true,
          emergencyAlertEnabled := true, masterVolume := JSNum.val 0.8,
          isDuckingEnabled := true }
    ∧ (MTS.serializeStore c6S2).talkgroups = c6S2.talkgroups
    ∧ c6S2.talkgroups ≠ []
    ∧ (MTS.serializeStore c6S2).activeSpeakers = ["emg"]
    ∧ (MTS.serializeStore c6S2).isEmergencyActive = true := by
  refine ⟨?_, rfl, ?_, ?_, ?_⟩
  · rw [c6S2_eval]; simp [MTS.partialize, c6S2V, c6S1V]
  · rw [c6S2_eval]; simp [c6S2V, c6S1V]
  · rw [c6S2_eval]; simp [MTS.serializeStore, c6S2V, c6S1V]
  · rw [c6S2_eval]; simp [MTS.serializeStore, c6S2V, c6S1V]

/-- C10: `getPriorityType` classifies every rational priority into exactly
one of the four bands — [100, inf) priority-static, [80, 100)
secondary-static, [50, 80) dynamic, below 50 adhoc — and the
`highestPriorityType` the recomputation uses depends only on the active
speakers' priority snapshots, not on any declared room kind. -/
theorem c10_bands :
    (∀ p : ℚ,
      (getPriorityType p = TalkgroupType.staticPriority ↔ 100 ≤ p)
      ∧ (getPriorityType p = TalkgroupType.staticSecondary ↔ 80 ≤ p ∧ p < 100)
      ∧ (getPriorityType p = TalkgroupType.dynamic ↔ 50 ≤ p ∧ p < 80)
      ∧ (getPriorityType p = TalkgroupType.adhoc ↔ p < 50))
    ∧ (∀ s t : EngineState,
        s.activeSpeakers.map (fun p => p.2.priority)
          = t.activeSpeakers.map (fun p => p.2.priority) →
        highestActiveType s = highestActiveType t) := by
  constructor
  · intro p
    unfold getPriorityType
    split_ifs with h1 h2 h3
    · exact ⟨iff_of_true rfl h1,
        iff_of_false (by simp) (fun hh => by linarith [hh.2]),
        iff_of_false (by simp) (fun hh => by linarith [hh.2]),
        iff_of_false (by simp) (fun hh => by linarith)⟩
    · exact ⟨iff_of_false (by simp) (fun hh => h1 hh),
        iff_of_true rfl ⟨h2, not_le.mp h1⟩,
        iff_of_false (by simp) (fun hh => by linarith [hh.2]),
        iff_of_false (by simp) (fun hh => by linarith)⟩
    · exact ⟨iff_of_false (by simp) (fun hh => h1 hh),
        iff_of_false (by simp) (fun hh => h2 hh.1),
        iff_of_true rfl ⟨h3, not_le.mp h2⟩,
        iff_of_false (by simp) (fun hh => by linarith)⟩
    · exact ⟨iff_of_false (by simp) (fun hh => h1 hh),
        iff_of_false (by simp) (fun hh => h2 hh.1),
        iff_of_false (by simp) (fun hh => h3 hh.1),
        iff_of_true rfl (not_le.mp h3)⟩
  · intro s t h
    simp [highestActiveType, highestActivePriority, h]

/-- Witness for C10 at a concrete priority and two states that differ in
everything but the priority snapshot. -/
theorem c10_bands_witness :
    getPriorityType 100 = TalkgroupType.staticPriority
    ∧ highestActiveType c10sA = highestActiveType c10sB :=
  ⟨(c10_bands.1 100).1.mpr (le_refl 100),
   c10_bands.2 c10sA c10sB (by simp [c10sA, c10sB, emptyEngine])⟩
